import Mathlib

/-!
Verification of the gemini-parallel-flow research copilot against its
natural-language specification.

The development shallowly embeds the relevant source code:
* the message classifier `isResearchQuery` (src/components/ChatArea.tsx and
  src/components/ActivityPanel.tsx, identical copies);
* the research-brief validation of the `chat-plan` edge function and of
  `GeminiService.createResearchPlan` (src/lib/gemini.ts);
* the `research-start` edge function (both source variants) as a trace of
  datastore operations;
* the two `parallel-webhook` edge-function variants as state transformers
  over an explicit datastore;
* the `ORDER BY created_at ASC` message-fetch query used by `chat-send` and
  by the client `useMessages` hook.

External collaborators (the HMAC primitive, the research provider, the
datastore clock) are passed in as explicit environment parameters; the
embedded handlers themselves are translated line-by-line from the source.

The file is laid out as all definitions first, followed by all theorems.
-/

namespace GeminiParallelFlow

/-! ## String helpers (JS semantics)

`containsSub hay needle` embeds JavaScript `hay.includes(needle)`
(substring containment, with the empty needle contained in everything).
`splitSp` embeds `s.split(' ')` (split at every single space character).
`capFirst` embeds `s.charAt(0).toUpperCase() + s.slice(1)`.
-/

def containsSub : List Char → List Char → Bool
  | [], needle => needle.isEmpty
  | c :: rest, needle => needle.isPrefixOf (c :: rest) || containsSub rest needle

def splitSp : List Char → List (List Char)
  | [] => [[]]
  | c :: rest =>
    if c = ' ' then [] :: splitSp rest
    else
      match splitSp rest with
      | [] => [[c]]
      | g :: gs => (c :: g) :: gs

def capFirst (s : String) : String :=
  match s.data with
  | [] => ""
  | c :: rest => String.mk (c.toUpper :: rest)

/-! ## Message Classifier (§4.1)

Translated from `isResearchQuery` in src/components/ChatArea.tsx lines 38-48
(the copy in src/components/ActivityPanel.tsx lines 410-420 is identical
text).  JS `message.toLowerCase()` is embedded as a character-wise
`Char.toLower` map (every keyword is lower-case ASCII), `includes` as
`containsSub`, and `message.length > 100` as a length comparison.
-/

def researchKeywords : List String :=
  ["research", "analyze", "investigate", "study", "explore", "examine",
   "find information", "gather data", "look into", "comprehensive",
   "detailed analysis", "in-depth", "thorough", "compare", "contrast"]

def lowerChars (message : String) : List Char :=
  message.data.map Char.toLower

def isResearchQuery (message : String) : Bool :=
  researchKeywords.any (fun kw => containsSub (lowerChars message) kw.data) ||
    message.length > 100

/-! ## Research Brief Builder (§4.3)

Two implementations parse the planning model's reply into a brief:
* the `chat-plan` edge function (src/supabase/functions/chat-plan/index.ts
  lines 113-140, and the identical logic in src/unnamed/part_000): it
  rejects a missing reply, rejects a JSON parse failure, and then walks the
  seven-element `requiredFields` list, throwing on the first field absent
  from the parsed object;
* `GeminiService.createResearchPlan` (src/lib/gemini.ts lines 114-142): it
  rejects a missing reply and a JSON parse failure, but returns the parsed
  object directly with no field-presence check.

`BriefJson` models the JSON object produced by `JSON.parse`: each of the
seven brief fields is `Option`al, `some` meaning the key is present
(`'field' in brief` in JS).  `PlanReply` models the provider reply as seen
by these functions: no content, content that is not valid JSON, or content
parsed to an object.
-/

structure BriefJson where
  objective : Option String
  constraints : Option (List String)
  target_sources : Option (List String)
  disallowed_sources : Option (List String)
  timebox_minutes : Option Int
  expected_output_fields : Option (List String)
  summary : Option String
deriving DecidableEq

inductive PlanReply where
  | noContent
  | badJson
  | json (b : BriefJson)
deriving DecidableEq

def requiredFields : List String :=
  ["objective", "constraints", "target_sources", "disallowed_sources",
   "timebox_minutes", "expected_output_fields", "summary"]

/-- `'field' in brief` for the seven brief keys. -/
def hasField (b : BriefJson) (field : String) : Bool :=
  if field = "objective" then b.objective.isSome
  else if field = "constraints" then b.constraints.isSome
  else if field = "target_sources" then b.target_sources.isSome
  else if field = "disallowed_sources" then b.disallowed_sources.isSome
  else if field = "timebox_minutes" then b.timebox_minutes.isSome
  else if field = "expected_output_fields" then b.expected_output_fields.isSome
  else if field = "summary" then b.summary.isSome
  else false

/-- The `for (const field of requiredFields) if (!(field in brief)) throw`
loop: the first required field missing from the object, if any. -/
def firstMissingField (b : BriefJson) : Option String :=
  requiredFields.find? (fun f => !hasField b f)

/-- The parse-and-validate tail of the chat-plan serve handler. -/
def chatPlanBrief : PlanReply → Except String BriefJson
  | .noContent => .error "No response generated"
  | .badJson => .error "Failed to parse research brief JSON"
  | .json b =>
    match firstMissingField b with
    | some f => .error ("Missing required field: " ++ f)
    | none => .ok b

/-- `GeminiService.createResearchPlan`: `JSON.parse(content)` is returned
as the brief with no field validation. -/
def createResearchPlan : PlanReply → Except String BriefJson
  | .noContent => .error "No response from Gemini"
  | .badJson => .error "Invalid JSON response"
  | .json b => .ok b

/-- A parsed object carrying only `objective`, as `JSON.parse` would yield
for the reply `\x7b"objective": "x"\x7d`. -/
def partialBrief : BriefJson :=
  ⟨some "x", none, none, none, none, none, none⟩

/-- A parsed object carrying all seven required fields. -/
def fullBrief : BriefJson :=
  ⟨some "obj", some [], some ["web"], some [], some 5, some ["summary"], some "s"⟩

/-! ## Task Dispatcher (§4.4): the research-start edge function

Two source variants exist:
* src/supabase/functions/research-start/index.ts (the one with session
  validation and a missing-session creation path);
* src/unnamed/part_001 (no session handling, otherwise the same order of
  effects).

Each is embedded as a function from an environment (the outcomes the
external collaborators would produce) and a request to an HTTP status plus
the ordered trace of datastore write operations the handler issued.  An
operation records whether the datastore reported success; an operation
absent from the trace was never issued (the handler threw first).
-/

structure Brief where
  objective : String
  summary : String
  timebox_minutes : Nat
deriving DecidableEq

structure StartReq where
  sessionId : String
  brief : Brief
deriving DecidableEq

/-- Outcome of `POST https://api.parallel.ai/v1/tasks/runs`: a network
error, a non-2xx response, a 2xx response without `run_id`, or a 2xx
response carrying `run_id`. -/
inductive CreateOutcome where
  | netError
  | httpError (code : Nat)
  | okNoRunId
  | ok (rid : String)
deriving DecidableEq

structure StartEnv where
  /-- ids of the chat_sessions rows present in the datastore. -/
  sessions : List String
  /-- whether the chat_sessions insert for a missing session succeeds. -/
  createSessionOk : Bool
  createRun : CreateOutcome
  insertTaskRunOk : Bool
  insertMessageOk : Bool
deriving DecidableEq

inductive DbOp where
  | insertSession (sid : String) (ok : Bool)
  | insertTaskRun (sid rid : String) (ok : Bool)
  | insertMessage (sid role content : String) (ok : Bool)
deriving DecidableEq

structure StartResult where
  status : Nat
  trace : List DbOp
deriving DecidableEq

/-- Content of the "Research Started" message (research-start/index.ts
line 210 and src/unnamed/part_001 line 106, identical template). -/
def startedMessageContent (b : Brief) (rid : String) : String :=
  "🔍 **Research Started**\n\n**Objective:** " ++ b.objective ++
    "\n\n**Estimated Time:** " ++ toString b.timebox_minutes ++
    " minutes\n\n*Task ID: " ++ rid ++ "*"

/-- The dispatch tail shared by both paths of `researchStart`: create the
provider task run, store the task_runs row, then insert the started
message. -/
def researchStartDispatch (env : StartEnv) (req : StartReq) (pre : List DbOp) :
    StartResult :=
  match env.createRun with
  | .netError => ⟨500, pre⟩
  | .httpError _ => ⟨500, pre⟩
  | .okNoRunId => ⟨500, pre⟩
  | .ok rid =>
    if env.insertTaskRunOk then
      ⟨200, pre ++ [.insertTaskRun req.sessionId rid true,
        .insertMessage req.sessionId "research"
          (startedMessageContent req.brief rid) env.insertMessageOk]⟩
    else
      ⟨500, pre ++ [.insertTaskRun req.sessionId rid false]⟩

/-- src/supabase/functions/research-start/index.ts serve handler.
The session select with `.single()` errors when no row matches, which the
code answers by inserting the session row (`user_id: null`); a failed
creation throws (500).  A create-run failure of any kind throws (500).  A
failed task_runs insert throws (500); a failed messages insert is logged
but deliberately not thrown ("task is already created"), so the handler
still answers 200. -/
def researchStart (env : StartEnv) (req : StartReq) : StartResult :=
  if env.sessions.contains req.sessionId then
    researchStartDispatch env req []
  else if env.createSessionOk then
    researchStartDispatch env req [.insertSession req.sessionId true]
  else
    ⟨500, [.insertSession req.sessionId false]⟩

/-- The insert sequence of `researchStartB` after a 2xx create response. -/
def researchStartBTail (env : StartEnv) (req : StartReq) (rid : String) :
    StartResult :=
  if env.insertTaskRunOk then
    ⟨200, [.insertTaskRun req.sessionId rid true,
      .insertMessage req.sessionId "research"
        (startedMessageContent req.brief rid) env.insertMessageOk]⟩
  else
    ⟨500, [.insertTaskRun req.sessionId rid false]⟩

/-- src/unnamed/part_001 serve handler: no session validation, no
`run_id`-presence check (a 2xx response without `run_id` proceeds with the
undefined identifier, which JS string interpolation renders as
"undefined"), task_runs insert before the message insert, message insert
not error-checked. -/
def researchStartB (env : StartEnv) (req : StartReq) : StartResult :=
  match env.createRun with
  | .netError => ⟨500, []⟩
  | .httpError _ => ⟨500, []⟩
  | .okNoRunId => researchStartBTail env req "undefined"
  | .ok rid => researchStartBTail env req rid

/-! ## Task Status Reconciler (§4.5): the parallel-webhook edge function

src/supabase/functions/parallel-webhook/index.ts contains two handler
variants concatenated:
* the first (lines 1-189): signature verification only when the secret AND
  all three webhook headers are truthy, comparison against candidates of
  the form `v1=<base64 hmac>`, a missing-`run_id` guard (400), a combined
  `update().eq().select('session_id').single()` (erroring unless exactly
  one row matches), then a completed branch fetching
  `/v1/tasks/runs/<rid>/result` and a failed/canceled branch inserting a
  system message whose metadata is `run_id, status` only;
* the second (lines 189-396): signature verification whenever the secret
  is truthy with headers defaulted to "", comparison without the `v1=`
  prefix, no `run_id` guard (an absent `run_id` reaches the row filter as
  the literal string "undefined"), an unconditional status update also
  setting `completed_at`, a completed branch fetching
  `/v1/tasks/runs/<rid>`, storing the serialized output, and inserting the
  formatted outcome; a failed/canceled branch inserting a system message
  with `error: true` metadata.

The datastore is explicit (`DB`); the HMAC primitive, the provider result
endpoints and the wall clock are environment parameters.  A handler
returns the HTTP status, the datastore after the request, and the list of
result-fetch calls it made to the provider.
Datastore writes themselves are modelled as succeeding (neither variant's
message inserts check errors; the update-error paths would only rethrow as
500 before any further effect).
-/

/-- The `output` object of a provider result payload (`summary`,
`key_facts`, `sources`, each possibly absent). -/
structure Output where
  summary : Option String
  key_facts : Option (List String)
  sources : Option (List String)
deriving DecidableEq

/-- Outcome of the first variant's `GET /v1/tasks/runs/<rid>/result`:
a 2xx response with parsed payload, a non-2xx response, or a thrown
network/parse error. -/
inductive FetchOutcome where
  | ok (r : Output)
  | httpError
  | netError
deriving DecidableEq

/-- A metadata value as stored on a message row. -/
inductive Meta where
  | s (v : String)
  | b (v : Bool)
  | out (v : Output)
deriving DecidableEq

structure MessageRow where
  session_id : String
  role : String
  content : String
  metadata : List (String × Meta)
deriving DecidableEq

structure TaskRunRow where
  parallel_run_id : String
  session_id : String
  status : String
  completed_at : Option String
  result : Option Output
  meta_completed_at : Option String
deriving DecidableEq

structure DB where
  task_runs : List TaskRunRow
  messages : List MessageRow
deriving DecidableEq

/-- An inbound webhook request: the three optional headers, the raw body
text (input of the HMAC), and the body as parsed by `JSON.parse`
(`run_id`/`status` keys, each possibly absent). -/
structure WebhookReq where
  headerId : Option String
  headerTimestamp : Option String
  headerSignature : Option String
  raw : String
  run_id : Option String
  status : Option String

structure WebhookEnv where
  /-- `Deno.env.get('PARALLEL_WEBHOOK_SECRET')`. -/
  webhookSecret : Option String
  /-- the HMAC-SHA256-then-base64 primitive: secret and signed payload to
  signature text. -/
  hmac : String → String → String
  /-- provider result endpoint used by the first variant. -/
  fetchResult : String → FetchOutcome
  /-- provider run endpoint used by the second variant (`none` = non-2xx,
  which that variant turns into a throw). -/
  fetchRun : String → Option Output
  /-- `new Date().toISOString()`. -/
  now : String

structure WebhookResult where
  status : Nat
  db : DB
  fetches : List String
deriving DecidableEq

/-- JS truthiness of a nullable string (null and "" are falsy). -/
def truthy : Option String → Bool
  | none => false
  | some s => !(s == "")

/-- A JS `undefined` value interpolated into a PostgREST `eq` filter (or a
URL) arrives as the literal string "undefined". -/
def eqFilterVal : Option String → String
  | some s => s
  | none => "undefined"

/-- `verifyWebhookSignature` of the first variant: candidates are the
space-separated pieces of the signature header, accepted when equal to
`v1=` followed by the base64 HMAC of `id.timestamp.payload`. -/
def verifySig1 (hmac : String → String → String)
    (secret sig ts wid payload : String) : Bool :=
  (splitSp sig.data).any
    (fun c => c == ("v1=" ++ hmac secret (wid ++ "." ++ ts ++ "." ++ payload)).data)

/-- `verifyWebhookSignature` of the second variant: same, but candidates
are compared to the bare base64 HMAC. -/
def verifySig2 (hmac : String → String → String)
    (secret sig ts wid payload : String) : Bool :=
  (splitSp sig.data).any
    (fun c => c == (hmac secret (wid ++ "." ++ ts ++ "." ++ payload)).data)

/-- JS template interpolation of a possibly-undefined string. -/
def optStr : Option String → String
  | some s => s
  | none => "undefined"

/-- `list.map((x, i) => `${i + 1}. ${x}`)`. -/
def numberedLines (l : List String) : List String :=
  l.enum.map (fun p => toString (p.1 + 1) ++ ". " ++ p.2)

/-- `o?.map((x, i) => `${i + 1}. ${x}`).join('\n') || dflt` (an absent or
empty list falls back to the default text — `[].join` is `""`, falsy). -/
def joinedOr (o : Option (List String)) (dflt : String) : String :=
  match o with
  | none => dflt
  | some l =>
    if String.intercalate "\n" (numberedLines l) == "" then dflt
    else String.intercalate "\n" (numberedLines l)

/-- The first variant's outcome message text. -/
def resultMessage1 (rid : String) (r : Output) : String :=
  "✅ **Research Completed**\n\n**Summary:**\n" ++ optStr r.summary ++
    "\n\n**Key Facts:**\n" ++ joinedOr r.key_facts "No key facts provided" ++
    "\n\n**Sources:**\n" ++ joinedOr r.sources "No sources provided" ++
    "\n\n*Task ID: " ++ rid ++ "*"

def completedMessage1 (sid rid : String) (r : Output) : MessageRow :=
  ⟨sid, "research", resultMessage1 rid r,
    [("run_id", .s rid), ("status", .s "completed"), ("result", .out r)]⟩

def fetchFailMessage1 (sid rid : String) : MessageRow :=
  ⟨sid, "system",
    "❌ Research task completed but failed to retrieve results. Task ID: " ++ rid,
    [("run_id", .s rid), ("status", .s "error")]⟩

def fetchErrMessage1 (sid rid : String) : MessageRow :=
  ⟨sid, "system",
    "❌ Research task completed but encountered an error retrieving results. Task ID: "
      ++ rid,
    [("run_id", .s rid), ("status", .s "error")]⟩

/-- First variant, failed/canceled branch: note the metadata carries only
`run_id` and `status` — no `error` flag. -/
def failedMessage1 (sid rid st : String) : MessageRow :=
  ⟨sid, "system", "❌ Research task " ++ st ++ ". Task ID: " ++ rid,
    [("run_id", .s rid), ("status", .s st)]⟩

/-- `forEach` with `+= `${index + 1}. ${x}\n`` as in the second variant's
block formatting. -/
def numberedBlock (l : List String) : String :=
  String.join (l.enum.map (fun p => toString (p.1 + 1) ++ ". " ++ p.2 ++ "\n"))

/-- The second variant's formatted outcome content. -/
def resultMessage2 (rid : String) (o : Output) : String :=
  "✅ **Research Complete**\n\n" ++
    (match o.summary with
      | some s => "## Summary\n" ++ s ++ "\n\n"
      | none => "") ++
    (match o.key_facts with
      | some l => "## Key Facts\n" ++ numberedBlock l ++ "\n"
      | none => "") ++
    (match o.sources with
      | some l => "## Sources\n" ++ numberedBlock l ++ "\n"
      | none => "") ++
    "*Task ID: " ++ rid ++ "*"

def completedMessage2 (sid rid : String) (o : Output) : MessageRow :=
  ⟨sid, "research", resultMessage2 rid o,
    [("run_id", .s rid), ("status", .s "completed"), ("results", .out o)]⟩

def failedContent2 (rid st : String) : String :=
  "❌ **Research " ++ capFirst st ++
    "**\n\nThe research task encountered an issue and could not be completed.\n\n*Task ID: "
    ++ rid ++
    "*\n\nPlease try again with a different query or check the Parallel.ai service status."

/-- Second variant, failed/canceled branch: metadata carries `error: true`. -/
def failedMessage2 (sid rid st : String) : MessageRow :=
  ⟨sid, "system", failedContent2 rid st,
    [("run_id", .s rid), ("status", .s st), ("error", .b true)]⟩

/-- Rows matching `.eq('parallel_run_id', rid)`. -/
def matchingRuns (rid : String) (rows : List TaskRunRow) : List TaskRunRow :=
  rows.filter (fun r => r.parallel_run_id == rid)

/-- First variant's `update(\x7b status \x7d)` (an undefined status key is
dropped from the payload, leaving the column unchanged). -/
def updateStatus1 (rid : String) (st : Option String) (rows : List TaskRunRow) :
    List TaskRunRow :=
  rows.map (fun r =>
    if r.parallel_run_id == rid then { r with status := st.getD r.status } else r)

/-- Second variant's update: status plus `completed_at` (the ISO timestamp
when completed, SQL NULL otherwise). -/
def updateStatus2 (now rid : String) (st : Option String) (rows : List TaskRunRow) :
    List TaskRunRow :=
  rows.map (fun r =>
    if r.parallel_run_id == rid then
      { r with status := st.getD r.status,
               completed_at := if st == some "completed" then some now else none }
    else r)

/-- Second variant's result persistence (`result` column plus a
`metadata.completed_at` timestamp; the serialized payload is modelled as
the parsed output itself). -/
def storeResult2 (now rid : String) (o : Output) (rows : List TaskRunRow) :
    List TaskRunRow :=
  rows.map (fun r =>
    if r.parallel_run_id == rid then
      { r with result := some o, meta_completed_at := some now }
    else r)

/-- First variant, after the signature gate: `run_id` guard, combined
update-and-select-single, then the status branches. -/
def processBody1 (env : WebhookEnv) (req : WebhookReq) (db : DB) : WebhookResult :=
  match req.run_id with
  | none => ⟨400, db, []⟩
  | some rid =>
    let db1 : DB := ⟨updateStatus1 rid req.status db.task_runs, db.messages⟩
    match matchingRuns rid db.task_runs with
    | [row] =>
      match req.status with
      | some st =>
        if st == "completed" then
          match env.fetchResult rid with
          | .ok result =>
            ⟨200, ⟨db1.task_runs,
              db1.messages ++ [completedMessage1 row.session_id rid result]⟩, [rid]⟩
          | .httpError =>
            ⟨200, ⟨db1.task_runs,
              db1.messages ++ [fetchFailMessage1 row.session_id rid]⟩, [rid]⟩
          | .netError =>
            ⟨200, ⟨db1.task_runs,
              db1.messages ++ [fetchErrMessage1 row.session_id rid]⟩, [rid]⟩
        else if st == "failed" || st == "canceled" then
          ⟨200, ⟨db1.task_runs,
            db1.messages ++ [failedMessage1 row.session_id rid st]⟩, []⟩
        else ⟨200, db1, []⟩
      | none => ⟨200, db1, []⟩
    | _ => ⟨500, db1, []⟩

/-- First parallel-webhook variant (file lines 36-189). -/
def parallelWebhook1 (env : WebhookEnv) (req : WebhookReq) (db : DB) : WebhookResult :=
  if truthy env.webhookSecret && truthy req.headerId &&
      truthy req.headerTimestamp && truthy req.headerSignature then
    if verifySig1 env.hmac (env.webhookSecret.getD "") (req.headerSignature.getD "")
        (req.headerTimestamp.getD "") (req.headerId.getD "") req.raw then
      processBody1 env req db
    else ⟨400, db, []⟩
  else processBody1 env req db

/-- Second variant, after the signature gate: unconditional status update
(no `run_id` guard), then the status branches; the completed branch
fetches the run, resolves the session via a select-single, stores the
result and inserts the outcome message. -/
def processBody2 (env : WebhookEnv) (req : WebhookReq) (db : DB) : WebhookResult :=
  let rid := eqFilterVal req.run_id
  let db1 : DB := ⟨updateStatus2 env.now rid req.status db.task_runs, db.messages⟩
  match req.status with
  | some st =>
    if st == "completed" then
      match env.fetchRun rid with
      | none => ⟨500, db1, [rid]⟩
      | some output =>
        match matchingRuns rid db1.task_runs with
        | [row] =>
          let db2 : DB := ⟨storeResult2 env.now rid output db1.task_runs, db1.messages⟩
          ⟨200, ⟨db2.task_runs,
            db2.messages ++ [completedMessage2 row.session_id rid output]⟩, [rid]⟩
        | _ => ⟨500, db1, [rid]⟩
    else if st == "failed" || st == "canceled" then
      match matchingRuns rid db1.task_runs with
      | [row] =>
        ⟨200, ⟨db1.task_runs,
          db1.messages ++ [failedMessage2 row.session_id rid st]⟩, []⟩
      | _ => ⟨500, db1, []⟩
    else ⟨200, db1, []⟩
  | none => ⟨200, db1, []⟩

/-- Second parallel-webhook variant (file lines 189-396). -/
def parallelWebhook2 (env : WebhookEnv) (req : WebhookReq) (db : DB) : WebhookResult :=
  if truthy env.webhookSecret then
    if verifySig2 env.hmac (env.webhookSecret.getD "") (req.headerSignature.getD "")
        (req.headerTimestamp.getD "") (req.headerId.getD "") req.raw then
      processBody2 env req db
    else ⟨401, db, []⟩
  else processBody2 env req db

/-- Message metadata lookup by key. -/
def metaLookup (m : List (String × Meta)) (k : String) : Option Meta :=
  (m.find? (fun p => p.1 == k)).map (fun p => p.2)

/-! ## Message ordering (§3 Message invariant)

The `messages` fetch used by the chat-send handler
(src/supabase/functions/chat-send/index.ts lines 36-41, same query in
chat-plan) and by the client `useMessages.fetchMessages`
(src/components/LiveUpdatesPanel.tsx lines 658-663):
`select * where session_id = sid order by created_at ascending`.
The table is the list of rows in insertion order; the `ORDER BY` is a
stable sort on the datastore-assigned creation timestamp.
-/

structure MsgRec where
  session_id : String
  role : String
  content : String
  created_at : Nat
deriving DecidableEq

def sessionRows (table : List MsgRec) (sid : String) : List MsgRec :=
  table.filter (fun m => m.session_id == sid)

def byCreatedAt (a b : MsgRec) : Prop :=
  a.created_at ≤ b.created_at

instance : DecidableRel byCreatedAt :=
  fun a b => Nat.decLe a.created_at b.created_at

/-- `select('*').eq('session_id', sid).order('created_at', ascending)`. -/
def fetchSessionMessages (table : List MsgRec) (sid : String) : List MsgRec :=
  List.insertionSort byCreatedAt (sessionRows table sid)

structure GeminiMsg where
  role : String
  text : String
deriving DecidableEq

/-- chat-send role mapping: `user` stays `user`, everything else that
survives the filter (`assistant`) becomes `model`. -/
def toGeminiMsg (m : MsgRec) : GeminiMsg :=
  ⟨if m.role == "user" then "user" else "model", m.content⟩

def conversationalRole (m : MsgRec) : Bool :=
  m.role == "user" || m.role == "assistant"

/-- The `contents` list chat-send posts to the chat-completion provider:
the fetched ordered history filtered to conversational roles, mapped to
provider turns, with the new user message appended. -/
def chatSendContents (table : List MsgRec) (sid newMessage : String) : List GeminiMsg :=
  ((fetchSessionMessages table sid).filter conversationalRole).map toGeminiMsg ++
    [⟨"user", newMessage⟩]

/-! ## Concrete fixtures used by counterexamples and witnesses -/

/-- No secret configured; the provider answers every result fetch with a
fixed successful payload. -/
def okFetchEnv : WebhookEnv :=
  ⟨none, fun _ _ => "", fun _ => .ok ⟨some "X", some ["a", "b"], some ["s1"]⟩,
    fun _ => some ⟨some "X", some ["a", "b"], some ["s1"]⟩, "t0"⟩

/-- Secret `sec` configured; the HMAC primitive answers `GOOD` for every
input; no provider fetches succeed. -/
def mismatchEnv : WebhookEnv :=
  ⟨some "sec", fun _ _ => "GOOD", fun _ => .netError, fun _ => none, "t0"⟩

/-- One task run `run_42` for session `s1`, already completed; no
messages. -/
def completedRunDb : DB :=
  ⟨[⟨"run_42", "s1", "completed", none, none, none⟩], []⟩

/-- One task run `run_42` for session `s1`, still running; no messages. -/
def runningRunDb : DB :=
  ⟨[⟨"run_42", "s1", "running", none, none, none⟩], []⟩

/-- Webhook body `run_id: run_42, status: completed`, no headers. -/
def completedReq : WebhookReq :=
  ⟨none, none, none, "", some "run_42", some "completed"⟩

/-- Webhook body `run_id: run_42, status: failed`, no headers. -/
def failedReq : WebhookReq :=
  ⟨none, none, none, "", some "run_42", some "failed"⟩

/-- Webhook body with a `status` key but no `run_id` key. -/
def noRunIdReq : WebhookReq :=
  ⟨none, none, none, "", none, some "running"⟩

/-- A webhook request carrying all three headers with a signature the
`GOOD` HMAC fixture does not produce. -/
def badSigReq : WebhookReq :=
  ⟨some "id1", some "ts1", some "BAD", "body", some "run_42", some "completed"⟩

/-- Same bad signature but the webhook-id header is missing. -/
def badSigNoIdReq : WebhookReq :=
  ⟨none, some "ts1", some "BAD", "body", some "run_42", some "running"⟩

/-- The matched row of `runningRunDb`. -/
def runningRow : TaskRunRow :=
  ⟨"run_42", "s1", "running", none, none, none⟩

/-- A four-row message table across two sessions, timestamps in insertion
order. -/
def msgTable : List MsgRec :=
  [⟨"s1", "user", "A", 1⟩, ⟨"s2", "user", "zzz", 2⟩,
   ⟨"s1", "assistant", "B", 3⟩, ⟨"s1", "research", "C", 5⟩]

end GeminiParallelFlow

namespace GeminiParallelFlow

/-! ## Theorems -/

set_option maxRecDepth 100000

/-- A Boolean prefix test agrees with the `List.IsPrefix` relation. -/
theorem isPrefixOf_iff_isPre (n h : List Char) : n.isPrefixOf h = true ↔ n <+: h := by
  induction n generalizing h with
  | nil => simp [List.isPrefixOf]
  | cons a t ih =>
    cases h with
    | nil => simp [List.isPrefixOf]
    | cons b u =>
      simp only [List.isPrefixOf, Bool.and_eq_true, beq_iff_eq, List.cons_prefix_cons, ih]

/-- `containsSub` decides the `List.IsInfix` relation. -/
theorem containsSub_iff (hay needle : List Char) :
    containsSub hay needle = true ↔ needle <:+: hay := by
  induction hay with
  | nil => simp [containsSub, List.isEmpty_iff]
  | cons c rest ih =>
    simp only [containsSub, Bool.or_eq_true, isPrefixOf_iff_isPre, ih,
      List.infix_cons_iff]

/-- Claim C4: the Message Classifier is a pure deterministic function of the
input string (it is embedded as a Lean function, so determinism is by
construction), and it returns `true` exactly when the lower-cased message
contains some keyword of the fixed research vocabulary as a substring, or
the message length exceeds 100 characters. -/
theorem classifier_char (message : String) :
    isResearchQuery message = true ↔
      ((∃ kw ∈ researchKeywords, kw.data <:+: lowerChars message) ∨
        100 < message.length) := by
  simp only [isResearchQuery, Bool.or_eq_true, List.any_eq_true, containsSub_iff,
    decide_eq_true_eq]

/-- Claim C5 (counterexample): `GeminiService.createResearchPlan` returns
a brief that parses as JSON but lacks six of the seven required fields —
the claim that every brief object the Research Brief Builder returns to
its caller carries all seven fields is false for this implementation. -/
theorem createResearchPlan_skips_validation :
    createResearchPlan (.json partialBrief) = .ok partialBrief ∧
      hasField partialBrief "summary" = false := by
  constructor <;> rfl

/-- Claim C5 (amended): every brief the `chat-plan` handler returns has all
seven required fields, a missing field or an unparsable reply is a hard
error there, and `createResearchPlan` also errors on an unparsable reply —
but `createResearchPlan` performs no field-presence check and returns any
parsed object unchanged. -/
theorem chatPlanBrief_validates :
    (∀ r b, chatPlanBrief r = .ok b → requiredFields.all (hasField b) = true)
    ∧ (∀ b f, f ∈ requiredFields → hasField b f = false →
        ∃ e, chatPlanBrief (.json b) = .error e)
    ∧ (∃ e, chatPlanBrief .badJson = .error e)
    ∧ (∀ b, createResearchPlan (.json b) = .ok b) := by
  refine ⟨?_, ?_, ⟨_, rfl⟩, fun b => rfl⟩
  · intro r b h
    match r with
    | .noContent => exact absurd h (by simp [chatPlanBrief])
    | .badJson => exact absurd h (by simp [chatPlanBrief])
    | .json b0 =>
      rw [chatPlanBrief] at h
      rcases hf : firstMissingField b0 with _ | f
      · rw [hf] at h
        cases h
        rw [List.all_eq_true]
        intro f hf'
        have := List.find?_eq_none.mp hf f hf'
        simpa using this
      · rw [hf] at h
        cases h
  · intro b f hf hmiss
    rcases hfind : firstMissingField b with _ | g
    · exact absurd (by simpa using List.find?_eq_none.mp hfind f hf) (by simp [hmiss])
    · exact ⟨_, by rw [chatPlanBrief, hfind]⟩

/-- Claim C5 (witness): instantiating the amended theorem at the concrete
seven-field brief accepted by the handler. -/
theorem chatPlanBrief_validates_witness :
    requiredFields.all (hasField fullBrief) = true :=
  chatPlanBrief_validates.1 (.json fullBrief) fullBrief (by rfl)

/-- In the dispatch tail, any message-insert operation in the trace sits
strictly after a successful task-run insert, provided the prefix `pre`
holds no message-insert operation. -/
theorem dispatch_msg_after_taskRun (env : StartEnv) (req : StartReq) (pre : List DbOp)
    (hpre : ∀ sid role content ok, DbOp.insertMessage sid role content ok ∉ pre)
    (role content : String) (mok : Bool)
    (hmem : DbOp.insertMessage req.sessionId role content mok ∈
      (researchStartDispatch env req pre).trace) :
    ∃ rid pre2 rest,
      (researchStartDispatch env req pre).trace =
        pre2 ++ DbOp.insertTaskRun req.sessionId rid true :: rest ∧
      DbOp.insertMessage req.sessionId role content mok ∈ rest := by
  cases hcr : env.createRun with
  | netError =>
    simp only [researchStartDispatch, hcr] at hmem
    exact absurd hmem (hpre _ _ _ _)
  | httpError code =>
    simp only [researchStartDispatch, hcr] at hmem
    exact absurd hmem (hpre _ _ _ _)
  | okNoRunId =>
    simp only [researchStartDispatch, hcr] at hmem
    exact absurd hmem (hpre _ _ _ _)
  | ok rid =>
    simp only [researchStartDispatch, hcr] at hmem ⊢
    by_cases hins : env.insertTaskRunOk
    · rw [if_pos hins] at hmem ⊢
      refine ⟨rid, pre,
        [DbOp.insertMessage req.sessionId "research"
          (startedMessageContent req.brief rid) env.insertMessageOk], by simp, ?_⟩
      simp only [List.mem_append, List.mem_cons, List.not_mem_nil, or_false] at hmem
      rcases hmem with h | h | h
      · exact absurd h (hpre _ _ _ _)
      · exact absurd h (by simp)
      · simp [h]
    · rw [if_neg hins] at hmem
      simp only [List.mem_append, List.mem_cons, List.not_mem_nil, or_false] at hmem
      rcases hmem with h | h
      · exact absurd h (hpre _ _ _ _)
      · simp at h

/-- Same property for the dispatch tail of the src/unnamed/part_001
variant. -/
theorem btail_msg_after_taskRun (env : StartEnv) (req : StartReq) (rid : String)
    (role content : String) (mok : Bool)
    (hmem : DbOp.insertMessage req.sessionId role content mok ∈
      (researchStartBTail env req rid).trace) :
    ∃ rid2 pre2 rest,
      (researchStartBTail env req rid).trace =
        pre2 ++ DbOp.insertTaskRun req.sessionId rid2 true :: rest ∧
      DbOp.insertMessage req.sessionId role content mok ∈ rest := by
  rw [researchStartBTail] at hmem ⊢
  by_cases hins : env.insertTaskRunOk
  · rw [if_pos hins] at hmem ⊢
    refine ⟨rid, [],
      [DbOp.insertMessage req.sessionId "research"
        (startedMessageContent req.brief rid) env.insertMessageOk], by simp, ?_⟩
    simp only [List.mem_cons, List.not_mem_nil, or_false] at hmem
    rcases hmem with h | h
    · exact absurd h (by simp)
    · simp [h]
  · rw [if_neg hins] at hmem
    simp only [List.mem_cons, List.not_mem_nil, or_false] at hmem
    simp at hmem

/-- The dispatch tail answers either 200 or 500, and keeps every operation
of its prefix in the trace. -/
theorem dispatch_status_and_pre (env : StartEnv) (req : StartReq) (pre : List DbOp) :
    ((researchStartDispatch env req pre).status = 200 ∨
      (researchStartDispatch env req pre).status = 500)
    ∧ ∀ op ∈ pre, op ∈ (researchStartDispatch env req pre).trace := by
  constructor
  · cases hcr : env.createRun <;> by_cases hins : env.insertTaskRunOk <;>
      simp [researchStartDispatch, hcr, hins]
  · intro op h
    cases hcr : env.createRun <;> by_cases hins : env.insertTaskRunOk <;>
      simp [researchStartDispatch, hcr, hins, h]

/-- Claim C6: in every execution of either research-start variant, the
"Research Started" message-insert operation is issued only strictly after
the task_runs insert for the run was issued and reported success: the
trace splits as a prefix, then a successful task-run insert, then a
remainder holding the message insert.  (A message insert therefore never
occurs when the task-run row was not stored first.) -/
theorem started_message_after_taskRun_insert :
    (∀ (env : StartEnv) (req : StartReq) (role content : String) (mok : Bool),
      DbOp.insertMessage req.sessionId role content mok ∈ (researchStart env req).trace →
      ∃ rid pre rest,
        (researchStart env req).trace =
          pre ++ DbOp.insertTaskRun req.sessionId rid true :: rest ∧
        DbOp.insertMessage req.sessionId role content mok ∈ rest)
    ∧ (∀ (env : StartEnv) (req : StartReq) (role content : String) (mok : Bool),
      DbOp.insertMessage req.sessionId role content mok ∈ (researchStartB env req).trace →
      ∃ rid pre rest,
        (researchStartB env req).trace =
          pre ++ DbOp.insertTaskRun req.sessionId rid true :: rest ∧
        DbOp.insertMessage req.sessionId role content mok ∈ rest) := by
  constructor
  · intro env req role content mok hmem
    by_cases hs : env.sessions.contains req.sessionId
    · rw [researchStart, if_pos hs] at hmem ⊢
      exact dispatch_msg_after_taskRun env req [] (by simp) role content mok hmem
    · by_cases hc : env.createSessionOk
      · rw [researchStart, if_neg hs, if_pos hc] at hmem ⊢
        exact dispatch_msg_after_taskRun env req _ (by simp) role content mok hmem
      · rw [researchStart, if_neg hs, if_neg hc] at hmem
        simp at hmem
  · intro env req role content mok hmem
    cases hcr : env.createRun with
    | netError => rw [researchStartB, hcr] at hmem; simp at hmem
    | httpError code => rw [researchStartB, hcr] at hmem; simp at hmem
    | okNoRunId =>
      rw [researchStartB, hcr] at hmem ⊢
      exact btail_msg_after_taskRun env req _ role content mok hmem
    | ok rid =>
      rw [researchStartB, hcr] at hmem ⊢
      exact btail_msg_after_taskRun env req _ role content mok hmem

/-- Claim C6 (witness): a successful dispatch for session `s1` and run
`run_42` has its started message strictly after the successful task-run
insert. -/
theorem started_message_after_taskRun_insert_witness :
    ∃ rid pre rest,
      (researchStart ⟨["s1"], true, .ok "run_42", true, true⟩
        ⟨"s1", ⟨"obj", "sum", 5⟩⟩).trace =
        pre ++ DbOp.insertTaskRun "s1" rid true :: rest ∧
      DbOp.insertMessage "s1" "research"
        (startedMessageContent ⟨"obj", "sum", 5⟩ "run_42") true ∈ rest :=
  started_message_after_taskRun_insert.1
    ⟨["s1"], true, .ok "run_42", true, true⟩ ⟨"s1", ⟨"obj", "sum", 5⟩⟩
    "research" (startedMessageContent ⟨"obj", "sum", 5⟩ "run_42") true (by decide)

/-- Claim C9 (counterexample): a research-start request whose sessionId is
absent from the datastore is not answered with 404 and does mutate the
datastore: the handler creates the missing session row and proceeds to
dispatch, answering 200. -/
theorem researchStart_creates_missing_session :
    (researchStart ⟨[], true, .ok "run_42", true, true⟩
      ⟨"s9", ⟨"o", "s", 5⟩⟩).status = 200 ∧
    DbOp.insertSession "s9" true ∈
      (researchStart ⟨[], true, .ok "run_42", true, true⟩
        ⟨"s9", ⟨"o", "s", 5⟩⟩).trace := by
  constructor
  · rfl
  · decide

/-- Claim C9 (amended): for a research-start request whose sessionId is
absent from the datastore, the handler never answers 404; instead it
issues a session-row insert (a mutation) and proceeds; only when that
insert fails does it abort with 500, without dispatching a task run. -/
theorem researchStart_missing_session :
    ∀ (env : StartEnv) (req : StartReq),
      env.sessions.contains req.sessionId = false →
      (researchStart env req).status ≠ 404
      ∧ DbOp.insertSession req.sessionId env.createSessionOk ∈
          (researchStart env req).trace
      ∧ (env.createSessionOk = false →
          (researchStart env req).status = 500 ∧
          ∀ sid rid ok, DbOp.insertTaskRun sid rid ok ∉ (researchStart env req).trace) := by
  intro env req hs
  by_cases hc : env.createSessionOk
  · rw [researchStart, if_neg (by simpa using hs), if_pos hc, hc]
    rcases dispatch_status_and_pre env req [DbOp.insertSession req.sessionId true] with
      ⟨hst, hpre⟩
    refine ⟨?_, hpre _ (by simp), fun hfalse => absurd hfalse (by simp)⟩
    rcases hst with h | h <;> simp [h]
  · rw [researchStart, if_neg (by simpa using hs), if_neg hc]
    have hcf : env.createSessionOk = false := by simpa using hc
    rw [hcf]
    exact ⟨by simp, by simp, fun _ => ⟨rfl, by simp⟩⟩

/-- Claim C9 (witness): instantiating the amended theorem at a concrete
request with an absent session and a failing session insert. -/
theorem researchStart_missing_session_witness :
    (researchStart ⟨[], false, .ok "r", true, true⟩ ⟨"s9", ⟨"o", "s", 5⟩⟩).status ≠ 404
    ∧ DbOp.insertSession "s9" false ∈
        (researchStart ⟨[], false, .ok "r", true, true⟩ ⟨"s9", ⟨"o", "s", 5⟩⟩).trace
    ∧ (false = false →
        (researchStart ⟨[], false, .ok "r", true, true⟩ ⟨"s9", ⟨"o", "s", 5⟩⟩).status = 500 ∧
        ∀ sid rid ok, DbOp.insertTaskRun sid rid ok ∉
          (researchStart ⟨[], false, .ok "r", true, true⟩ ⟨"s9", ⟨"o", "s", 5⟩⟩).trace) :=
  researchStart_missing_session ⟨[], false, .ok "r", true, true⟩
    ⟨"s9", ⟨"o", "s", 5⟩⟩ (by decide)

/-- Claim C1 (code evaluation): delivering the identical
`run_id: run_42, status: completed` webhook body twice in sequence, for a
run whose row is already in status `completed`, inserts a `research`-role
outcome message on EACH delivery — two outcome messages total after the
two deliveries, for both handler variants, where the specification
requires exactly one.  Neither variant guards the completed branch on the
run's previous status. -/
theorem duplicate_completed_webhook_duplicates_outcome :
    (completedRunDb.task_runs.map TaskRunRow.status = ["completed"])
    ∧ ((parallelWebhook1 okFetchEnv completedReq completedRunDb).db.messages.filter
        (fun m => m.role == "research")).length = 1
    ∧ ((parallelWebhook1 okFetchEnv completedReq
          (parallelWebhook1 okFetchEnv completedReq completedRunDb).db).db.messages.filter
        (fun m => m.role == "research")).length = 2
    ∧ ((parallelWebhook2 okFetchEnv completedReq
          (parallelWebhook2 okFetchEnv completedReq completedRunDb).db).db.messages.filter
        (fun m => m.role == "research")).length = 2
    ∧ (parallelWebhook1 okFetchEnv completedReq completedRunDb).status = 200
    ∧ (parallelWebhook1 okFetchEnv completedReq
        (parallelWebhook1 okFetchEnv completedReq completedRunDb).db).status = 200 := by
  refine ⟨rfl, ?_, ?_, ?_, rfl, rfl⟩ <;> decide

/-- Claim C2: with a configured (truthy) secret, a request whose
signature header does not verify against the HMAC of
`webhook_id.timestamp.raw_body` is rejected — 400 by the first variant
(whose check runs when all three headers are carried), 401 by the second —
and the datastore is returned unmodified with no provider fetch made. -/
theorem signature_mismatch_rejected :
    (∀ (env : WebhookEnv) (req : WebhookReq) (db : DB) (sec wid ts sg : String),
      env.webhookSecret = some sec → sec ≠ "" →
      req.headerId = some wid → wid ≠ "" →
      req.headerTimestamp = some ts → ts ≠ "" →
      req.headerSignature = some sg → sg ≠ "" →
      verifySig1 env.hmac sec sg ts wid req.raw = false →
      parallelWebhook1 env req db = ⟨400, db, []⟩)
    ∧ (∀ (env : WebhookEnv) (req : WebhookReq) (db : DB) (sec : String),
      env.webhookSecret = some sec → sec ≠ "" →
      verifySig2 env.hmac sec (req.headerSignature.getD "")
        (req.headerTimestamp.getD "") (req.headerId.getD "") req.raw = false →
      parallelWebhook2 env req db = ⟨401, db, []⟩) := by
  constructor
  · intro env req db sec wid ts sg hsec hsne hid hidne hts htsne hsg hsgne hver
    simp [parallelWebhook1, hsec, hid, hts, hsg, truthy, hsne, hidne, htsne,
      hsgne, hver]
  · intro env req db sec hsec hsne hver
    simp [parallelWebhook2, hsec, truthy, hsne, hver]

/-- Claim C2 (witness): a concrete mismatching signature is rejected by
both variants with the datastore unchanged. -/
theorem signature_mismatch_rejected_witness :
    parallelWebhook1 mismatchEnv badSigReq completedRunDb = ⟨400, completedRunDb, []⟩
    ∧ parallelWebhook2 mismatchEnv badSigReq completedRunDb = ⟨401, completedRunDb, []⟩ :=
  ⟨signature_mismatch_rejected.1 mismatchEnv badSigReq completedRunDb
      "sec" "id1" "ts1" "BAD" rfl (by decide) rfl (by decide) rfl (by decide)
      rfl (by decide) (by decide),
    signature_mismatch_rejected.2 mismatchEnv badSigReq completedRunDb
      "sec" rfl (by decide) (by decide)⟩

/-- Claim C10: in the first parallel-webhook variant, when a secret is
configured but any one of the webhook-id, webhook-timestamp or
webhook-signature headers is absent, signature verification is skipped
entirely: the handler behaves exactly as the unauthenticated processing of
the payload. -/
theorem missing_header_skips_verification :
    ∀ (env : WebhookEnv) (req : WebhookReq) (db : DB) (sec : String),
      env.webhookSecret = some sec →
      (req.headerId = none ∨ req.headerTimestamp = none ∨ req.headerSignature = none) →
      parallelWebhook1 env req db = processBody1 env req db := by
  intro env req db sec hsec hmiss
  rcases hmiss with h | h | h <;> simp [parallelWebhook1, h, truthy]

/-- Claim C10 (witness): with a configured secret and a signature header
that cannot verify, a request missing the webhook-id header is processed
anyway — concretely, it is accepted and updates the run. -/
theorem missing_header_skips_verification_witness :
    parallelWebhook1 mismatchEnv badSigNoIdReq runningRunDb =
      processBody1 mismatchEnv badSigNoIdReq runningRunDb
    ∧ (parallelWebhook1 mismatchEnv badSigNoIdReq runningRunDb).status = 200 :=
  ⟨missing_header_skips_verification mismatchEnv badSigNoIdReq runningRunDb
      "sec" rfl (Or.inl rfl),
    by decide⟩

/-- Claim C3 (counterexample): the second parallel-webhook variant has no
`run_id` guard — a body with a `status` key and no `run_id` key is
answered 200, not 400, and leaves the datastore as it was (the `eq`
filter value degenerates to the string "undefined" which matches no
row). -/
theorem missing_runId_accepted_by_second_variant :
    noRunIdReq.run_id = none
    ∧ (parallelWebhook2 okFetchEnv noRunIdReq completedRunDb).status = 200
    ∧ (parallelWebhook2 okFetchEnv noRunIdReq completedRunDb).db = completedRunDb := by
  refine ⟨rfl, rfl, ?_⟩
  decide

/-- A status update keyed on a run identifier carried by no row leaves the
task-run table unchanged. -/
theorem updateStatus2_no_match (now rid : String) (st : Option String)
    (rows : List TaskRunRow) (h : ∀ r ∈ rows, r.parallel_run_id ≠ rid) :
    updateStatus2 now rid st rows = rows := by
  unfold updateStatus2
  exact (List.map_congr_left (fun r hr => by simp [h r hr])).trans (List.map_id rows)

/-- Claim C3 (amended): a webhook body lacking `run_id` is rejected with
400 and no datastore change by the FIRST parallel-webhook variant under
all circumstances; the SECOND variant lacks the guard — with no secret
configured, a non-terminal status, and no row keyed "undefined", it
answers 200 with the datastore unchanged instead of rejecting. -/
theorem missing_runId_guard :
    (∀ (env : WebhookEnv) (req : WebhookReq) (db : DB),
      req.run_id = none → parallelWebhook1 env req db = ⟨400, db, []⟩)
    ∧ (∀ (env : WebhookEnv) (req : WebhookReq) (db : DB) (st : String),
      env.webhookSecret = none → req.run_id = none → req.status = some st →
      (st == "completed") = false → (st == "failed") = false →
      (st == "canceled") = false →
      (∀ r ∈ db.task_runs, r.parallel_run_id ≠ "undefined") →
      parallelWebhook2 env req db = ⟨200, db, []⟩) := by
  constructor
  · intro env req db h
    have hp : processBody1 env req db = ⟨400, db, []⟩ := by
      simp only [processBody1, h]
    rw [parallelWebhook1]
    split
    · split
      · exact hp
      · rfl
    · exact hp
  · intro env req db st hsec hrun hst h1 h2 h3 hrows
    have hupd := updateStatus2_no_match env.now "undefined" req.status db.task_runs hrows
    rw [hst] at hupd
    simp [parallelWebhook2, hsec, truthy, processBody2, hrun, hst, eqFilterVal,
      h1, h2, h3, hupd]

/-- Claim C3 (witness): instantiating the amended theorem — the first
variant rejects the concrete no-`run_id` body with 400, the second answers
it 200, both leaving the datastore as it was. -/
theorem missing_runId_guard_witness :
    parallelWebhook1 okFetchEnv noRunIdReq runningRunDb = ⟨400, runningRunDb, []⟩
    ∧ parallelWebhook2 okFetchEnv noRunIdReq runningRunDb = ⟨200, runningRunDb, []⟩ :=
  ⟨missing_runId_guard.1 okFetchEnv noRunIdReq runningRunDb rfl,
    missing_runId_guard.2 okFetchEnv noRunIdReq runningRunDb "running"
      rfl rfl rfl (by decide) (by decide) (by decide) (by decide)⟩

/-- Claim C7 (counterexample): a `failed` webhook for the known running
run `run_42`, handled by the first variant, inserts exactly one system
message — but its metadata is `run_id, status` with NO `error` key, where
the claim requires the metadata to contain `error: true`. -/
theorem failed_webhook_metadata_lacks_error_flag :
    (parallelWebhook1 okFetchEnv failedReq runningRunDb).db.messages =
      [failedMessage1 "s1" "run_42" "failed"]
    ∧ metaLookup (failedMessage1 "s1" "run_42" "failed").metadata "error" = none
    ∧ (parallelWebhook1 okFetchEnv failedReq runningRunDb).fetches = [] := by
  refine ⟨?_, rfl, rfl⟩
  decide

/-- The second variant's status update commutes with the run-id row
filter (the update does not touch the filtered column). -/
theorem matchingRuns_updateStatus2 (now rid : String) (st : Option String)
    (rows : List TaskRunRow) :
    matchingRuns rid (updateStatus2 now rid st rows) =
      updateStatus2 now rid st (matchingRuns rid rows) := by
  unfold matchingRuns updateStatus2
  rw [List.filter_map]
  congr 1
  apply List.filter_congr
  intro r _hr
  by_cases h : r.parallel_run_id == rid <;> simp [Function.comp, h]

/-- Claim C7 (amended): for a `failed` or `canceled` webhook naming a
known run, each variant inserts exactly one `system`-role message whose
content names the terminal status (capitalised in the second variant) and
the run identifier, and makes no result-fetch call; the metadata of the
second variant's message contains `error: true`, while the first
variant's metadata carries only `run_id` and `status`, with no `error`
key. -/
theorem failed_webhook_behavior :
    ∀ (env : WebhookEnv) (req : WebhookReq) (db : DB) (rid st : String)
      (row : TaskRunRow),
      env.webhookSecret = none →
      req.run_id = some rid →
      req.status = some st →
      (st = "failed" ∨ st = "canceled") →
      matchingRuns rid db.task_runs = [row] →
      ((parallelWebhook1 env req db).status = 200
        ∧ (parallelWebhook1 env req db).fetches = []
        ∧ (parallelWebhook1 env req db).db.messages =
            db.messages ++ [failedMessage1 row.session_id rid st]
        ∧ (failedMessage1 row.session_id rid st).role = "system"
        ∧ containsSub (failedMessage1 row.session_id rid st).content.data st.data = true
        ∧ containsSub (failedMessage1 row.session_id rid st).content.data rid.data = true
        ∧ metaLookup (failedMessage1 row.session_id rid st).metadata "error" = none)
      ∧ ((parallelWebhook2 env req db).status = 200
        ∧ (parallelWebhook2 env req db).fetches = []
        ∧ (parallelWebhook2 env req db).db.messages =
            db.messages ++ [failedMessage2 row.session_id rid st]
        ∧ (failedMessage2 row.session_id rid st).role = "system"
        ∧ containsSub (failedMessage2 row.session_id rid st).content.data
            (capFirst st).data = true
        ∧ containsSub (failedMessage2 row.session_id rid st).content.data
            rid.data = true
        ∧ metaLookup (failedMessage2 row.session_id rid st).metadata "error" =
            some (.b true)) := by
  intro env req db rid st row hsec hrun hst hterm hrow
  have hrowmem : row ∈ matchingRuns rid db.task_runs := by
    rw [hrow]; exact List.mem_singleton.mpr rfl
  have hmatch : row.parallel_run_id = rid := by
    unfold matchingRuns at hrowmem
    simpa using (List.mem_filter.mp hrowmem).2
  have hsub1a : containsSub (failedMessage1 row.session_id rid st).content.data
      st.data = true := by
    apply (containsSub_iff _ _).mpr
    refine ⟨("❌ Research task ").data, (". Task ID: " ++ rid).data, ?_⟩
    simp [failedMessage1, String.data_append]
  have hsub1b : containsSub (failedMessage1 row.session_id rid st).content.data
      rid.data = true := by
    apply (containsSub_iff _ _).mpr
    refine ⟨("❌ Research task " ++ st ++ ". Task ID: ").data, [], ?_⟩
    simp [failedMessage1, String.data_append]
  have hsub2a : containsSub (failedMessage2 row.session_id rid st).content.data
      (capFirst st).data = true := by
    apply (containsSub_iff _ _).mpr
    refine ⟨("❌ **Research ").data,
      ("**\n\nThe research task encountered an issue and could not be completed.\n\n*Task ID: "
        ++ rid ++
        "*\n\nPlease try again with a different query or check the Parallel.ai service status.").data,
      ?_⟩
    simp [failedMessage2, failedContent2, String.data_append]
  have hsub2b : containsSub (failedMessage2 row.session_id rid st).content.data
      rid.data = true := by
    apply (containsSub_iff _ _).mpr
    refine ⟨("❌ **Research " ++ capFirst st ++
      "**\n\nThe research task encountered an issue and could not be completed.\n\n*Task ID: ").data,
      ("*\n\nPlease try again with a different query or check the Parallel.ai service status.").data,
      ?_⟩
    simp [failedMessage2, failedContent2, String.data_append]
  rcases hterm with rfl | rfl
  · have hmm : matchingRuns rid (updateStatus2 env.now rid (some "failed") db.task_runs) =
        [{ row with status := "failed", completed_at := none }] := by
      rw [matchingRuns_updateStatus2, hrow]
      simp [updateStatus2, hmatch]
    refine ⟨⟨?_, ?_, ?_, rfl, hsub1a, hsub1b, by simp [failedMessage1, metaLookup]⟩,
      ⟨?_, ?_, ?_, rfl, hsub2a, hsub2b, by simp [failedMessage2, metaLookup]⟩⟩ <;>
      simp [parallelWebhook1, parallelWebhook2, truthy, hsec, processBody1,
        processBody2, hrun, hst, hrow, eqFilterVal, hmm, failedMessage2]
  · have hmm : matchingRuns rid (updateStatus2 env.now rid (some "canceled") db.task_runs) =
        [{ row with status := "canceled", completed_at := none }] := by
      rw [matchingRuns_updateStatus2, hrow]
      simp [updateStatus2, hmatch]
    refine ⟨⟨?_, ?_, ?_, rfl, hsub1a, hsub1b, by simp [failedMessage1, metaLookup]⟩,
      ⟨?_, ?_, ?_, rfl, hsub2a, hsub2b, by simp [failedMessage2, metaLookup]⟩⟩ <;>
      simp [parallelWebhook1, parallelWebhook2, truthy, hsec, processBody1,
        processBody2, hrun, hst, hrow, eqFilterVal, hmm, failedMessage2]

/-- Claim C7 (witness): instantiating the amended theorem at the concrete
`failed` webhook for run `run_42` of session `s1`. -/
theorem failed_webhook_behavior_witness :
    ((parallelWebhook1 okFetchEnv failedReq runningRunDb).status = 200
      ∧ (parallelWebhook1 okFetchEnv failedReq runningRunDb).fetches = []
      ∧ (parallelWebhook1 okFetchEnv failedReq runningRunDb).db.messages =
          runningRunDb.messages ++ [failedMessage1 runningRow.session_id "run_42" "failed"]
      ∧ (failedMessage1 runningRow.session_id "run_42" "failed").role = "system"
      ∧ containsSub (failedMessage1 runningRow.session_id "run_42" "failed").content.data
          (String.data "failed") = true
      ∧ containsSub (failedMessage1 runningRow.session_id "run_42" "failed").content.data
          (String.data "run_42") = true
      ∧ metaLookup (failedMessage1 runningRow.session_id "run_42" "failed").metadata
          "error" = none)
    ∧ ((parallelWebhook2 okFetchEnv failedReq runningRunDb).status = 200
      ∧ (parallelWebhook2 okFetchEnv failedReq runningRunDb).fetches = []
      ∧ (parallelWebhook2 okFetchEnv failedReq runningRunDb).db.messages =
          runningRunDb.messages ++ [failedMessage2 runningRow.session_id "run_42" "failed"]
      ∧ (failedMessage2 runningRow.session_id "run_42" "failed").role = "system"
      ∧ containsSub (failedMessage2 runningRow.session_id "run_42" "failed").content.data
          (String.data (capFirst "failed")) = true
      ∧ containsSub (failedMessage2 runningRow.session_id "run_42" "failed").content.data
          (String.data "run_42") = true
      ∧ metaLookup (failedMessage2 runningRow.session_id "run_42" "failed").metadata
          "error" = some (.b true)) :=
  failed_webhook_behavior okFetchEnv failedReq runningRunDb "run_42" "failed"
    runningRow rfl rfl rfl (Or.inl rfl) (by decide)

/-- Claim C8: when a session's rows carry strictly increasing creation
timestamps in insertion order (the datastore assigns them monotonically as
messages arrive), the `ORDER BY created_at ASC` fetch returns exactly the
insertion-ordered rows, and the conversation chat-send feeds back to the
chat-completion provider is that same order (filtered to conversational
roles, new message appended). -/
theorem ordered_fetch_preserves_arrival_order :
    ∀ (table : List MsgRec) (sid nm : String),
      (sessionRows table sid).Pairwise (fun a b => a.created_at < b.created_at) →
      fetchSessionMessages table sid = sessionRows table sid
      ∧ chatSendContents table sid nm =
          ((sessionRows table sid).filter conversationalRole).map toGeminiMsg ++
            [⟨"user", nm⟩] := by
  intro table sid nm hmono
  have hsorted : List.Sorted byCreatedAt (sessionRows table sid) :=
    hmono.imp (fun h => Nat.le_of_lt h)
  have hfetch : fetchSessionMessages table sid = sessionRows table sid := by
    unfold fetchSessionMessages
    exact List.Sorted.insertionSort_eq hsorted
  exact ⟨hfetch, by rw [chatSendContents, hfetch]⟩

/-- Claim C8 (witness): a concrete table in which session `s1` receives a
user message, an assistant reply and a research outcome in that order is
fetched back in that order and fed to the provider in that order. -/
theorem ordered_fetch_preserves_arrival_order_witness :
    fetchSessionMessages msgTable "s1" = sessionRows msgTable "s1"
    ∧ chatSendContents msgTable "s1" "new" =
        ((sessionRows msgTable "s1").filter conversationalRole).map toGeminiMsg ++
          [⟨"user", "new"⟩] :=
  ordered_fetch_preserves_arrival_order msgTable "s1" "new" (by decide)

end GeminiParallelFlow
